import Mathlib

/-!
Shallow embedding of the supporter-monitor control plane
(`monitored_subjects.py`, `state_machine.py`, `supporter_monitor.py`,
`supporter_adapter.py`, `shared.py`).

Modelling conventions:
* Wall-clock time is an explicit integer parameter `now` threaded into every
  operation that calls `time.time()` in the source, measured in milliseconds
  (every time constant of `shared.py` is an exact number of milliseconds, so
  the source's float seconds order-embed into this grid); a single `now` is
  used for a whole tick (the tests drive the monitor with a controllable
  clock).
* Python object aliasing is replaced by identity keys: a peer is identified by
  its `(id, ip, port)` triple (Python `__eq__`/`__hash__`), a supporter by its
  `(id, addr, min_peer, max_peer)` tuple.  Rosters and the active list store
  keys; reads of an aliased object's fields go through the registry lookup,
  which coincides with the Python semantics whenever the keys are registered
  (true in every state considered here).
* Python `assert` statements are modelled by `Except Unit`: a failing assert
  raises, i.e. produces `Except.error`.
-/

/-- Decidable equality on `Except`, used to evaluate the outcome of operations whose
Python originals may raise. -/
instance exceptDecEq {ε α : Type} [DecidableEq ε] [DecidableEq α] :
    DecidableEq (Except ε α)
  | .ok a, .ok b =>
      if h : a = b then .isTrue (congrArg Except.ok h)
      else .isFalse (fun hh => h (Except.ok.inj hh))
  | .ok _, .error _ => .isFalse (fun hh => Except.noConfusion hh)
  | .error _, .ok _ => .isFalse (fun hh => Except.noConfusion hh)
  | .error e, .error f =>
      if h : e = f then .isTrue (congrArg Except.error h)
      else .isFalse (fun hh => h (Except.error.inj hh))

namespace VodSupporter

/-- `shared.py`: message kind constants. -/
inductive Msg where
  | supportRequired
  | supportNotNeeded
  | peerSupported
  | peerRegistered
deriving DecidableEq, Repr

/-- The four classification states realised by `state_machine.py`. -/
inductive PState where
  | default
  | watched
  | starving
  | supported
deriving DecidableEq, Repr

/-- `shared.py`: PEER_TIMEOUT_BOUND = 5 seconds (5000 ms). -/
def peerTimeoutBound : ℤ := 5000

/-- `shared.py`: IS_ALIVE_TIMEOUT_BOUND = 10 seconds (10000 ms). -/
def isAliveTimeoutBound : ℤ := 10000

/-- `shared.py`: PEER_REQUIRED_MSGS = 4. -/
def peerRequiredMsgs : ℕ := 4

/-- `shared.py`: PEER_STATUS_APPROVAL_TIME = PEER_REQUIRED_MSGS * (1 + 0.150)
= 4.6 seconds (4600 ms). -/
def peerStatusApprovalTime : ℤ := 4600

/-- `shared.py`: PEER_REMOVAL_TIME = 45 seconds (45000 ms). -/
def peerRemovalTime : ℤ := 45000

/-- `monitored_subjects.py`, class `MonitoredPeer`: the per-peer record. -/
structure MonitoredPeer where
  id : String
  ip : String
  port : ℤ
  peerType : ℤ
  isAliveTimeout : ℤ
  peerTimeout : ℤ
  state : PState
  timeoutTimer : Option ℤ
  tsList : List ℤ
  supportRequests : ℕ
  lastReceivedMsg : Option Msg
  tsLastReceivedMsg : Option ℤ
deriving DecidableEq, Repr

/-- Python `MonitoredPeer.__eq__` / `__hash__`: identity is the (ID, IP, Port) triple. -/
def peerKey (p : MonitoredPeer) : String × String × ℤ :=
  (p.id, p.ip, p.port)

/-- `MonitoredPeer.get_ts_first_request`: head of the sliding window, `None` if empty. -/
def MonitoredPeer.getTsFirstRequest (p : MonitoredPeer) : Option ℤ :=
  p.tsList.head?

/-- `MonitoredPeer.get_ts_last_request`: last element of the sliding window, `None` if empty. -/
def MonitoredPeer.getTsLastRequest (p : MonitoredPeer) : Option ℤ :=
  p.tsList.getLast?

/-- `MonitoredPeer.reset_support_cycle`: clears the window and zeroes the request counter. -/
def resetSupportCycle (p : MonitoredPeer) : MonitoredPeer :=
  { p with tsList := [], supportRequests := 0 }

/-- `MonitoredPeer.peer_timed_out`: false when the cooldown timer is stopped, otherwise
`(now - timer) >= peer_timeout`. -/
def peerTimedOut (now : ℤ) (p : MonitoredPeer) : Bool :=
  match p.timeoutTimer with
  | none => false
  | some t => decide (now - t ≥ p.peerTimeout)

/-- `MonitoredPeer.peer_is_alive`: `(now - last request timestamp) < is_alive_timeout`,
or true when the request window is empty (grace period for a fresh peer). -/
def peerIsAlive (now : ℤ) (p : MonitoredPeer) : Bool :=
  match p.getTsLastRequest with
  | some ts => decide (now - ts < p.isAliveTimeout)
  | none => true

/-- `MonitoredPeer.received_support_required_message`: bump the counter, stop the
cooldown timer, append `now` to the window and drop the oldest entry on overflow. -/
def receivedSupportRequiredMessage (now : ℤ) (p : MonitoredPeer) : MonitoredPeer :=
  let p1 := { p with supportRequests := p.supportRequests + 1, timeoutTimer := none }
  let l := p1.tsList ++ [now]
  { p1 with tsList := if l.length > peerRequiredMsgs then l.tail else l }

/-- `MonitoredPeer.received_support_not_needed_message`: reset the cycle and start the
cooldown timer if it is not already running. -/
def receivedSupportNotNeededMessage (now : ℤ) (p : MonitoredPeer) : MonitoredPeer :=
  let p1 := resetSupportCycle p
  { p1 with timeoutTimer := match p1.timeoutTimer with | none => some now | some t => some t }

/-- `WatchedState.support_requests_are_within_approval_interval`.  The Python code
subtracts the two window endpoints without a `None` guard; in every state in which the
source evaluates it (last message SUPPORT_REQUIRED in Watched) the window is non-empty,
so the `getD 0` fallback is never semantically relevant. -/
def supportRequestsAreWithinApprovalInterval (p : MonitoredPeer) : Bool :=
  decide (p.getTsLastRequest.getD 0 - p.getTsFirstRequest.getD 0 ≤ peerStatusApprovalTime)

/-- `WatchedState.minimum_support_requests_reached`. -/
def minimumSupportRequestsReached (p : MonitoredPeer) : Bool :=
  decide (p.supportRequests ≥ peerRequiredMsgs)

/-- `state_machine.py`: one synchronous transition step of the current state
(`DefaultState.transition`, `WatchedState.transition`, `StarvingState.transition`,
`SupportedState.transition`).  Note two literal quirks of the source: in
`StarvingState.transition` the PEER_SUPPORTED check is a separate `if` after the
not-alive / not-needed chain, and in `SupportedState.transition` the guard is
`msg == SUPPORT_NOT_NEEDED and peer_timed_out() or not peer_is_alive()`, which Python
parses as `(msg == SNN and timed_out) or (not alive)`. -/
def transition (now : ℤ) (p : MonitoredPeer) : MonitoredPeer :=
  match p.state with
  | .default =>
      if p.getTsFirstRequest ≠ none ∧ p.supportRequests = 1 then
        { p with state := .watched }
      else p
  | .watched =>
      if peerIsAlive now p = false then
        resetSupportCycle { p with state := .default }
      else if p.lastReceivedMsg = some .supportNotNeeded then
        { p with state := .default }
      else if p.lastReceivedMsg = some .supportRequired then
        if supportRequestsAreWithinApprovalInterval p = true ∧
            minimumSupportRequestsReached p = true then
          { p with state := .starving }
        else p
      else p
  | .starving =>
      let p1 :=
        if peerIsAlive now p = false then
          resetSupportCycle { p with state := .default }
        else if p.lastReceivedMsg = some .supportNotNeeded then
          { p with state := .default }
        else p
      if p.lastReceivedMsg = some .peerSupported then
        { p1 with state := .supported }
      else p1
  | .supported =>
      if peerIsAlive now p = false then
        resetSupportCycle { p with state := .default }
      else if (p.lastReceivedMsg = some .supportNotNeeded ∧ peerTimedOut now p = true) ∨
          peerIsAlive now p = false then
        { p with state := .default }
      else p

/-- `MonitoredPeer.msg_handler`: the message-specific side effects.  PEER_SUPPORTED and
PEER_REGISTERED have no side effects beyond the last-message bookkeeping. -/
def msgHandler (now : ℤ) (msg : Msg) (p : MonitoredPeer) : MonitoredPeer :=
  match msg with
  | .supportRequired => receivedSupportRequiredMessage now p
  | .supportNotNeeded => receivedSupportNotNeededMessage now p
  | .peerSupported => p
  | .peerRegistered => p

/-- `MonitoredPeer.receive_msg`: record kind and timestamp, run the handler, then run one
synchronous transition step. -/
def receiveMsg (now : ℤ) (msg : Msg) (p : MonitoredPeer) : MonitoredPeer :=
  transition now
    (msgHandler now msg { p with lastReceivedMsg := some msg, tsLastReceivedMsg := some now })

/-- `MonitoredPeer.support_aborted`: force the state to Starving (used when the
supporting supporter is removed). -/
def supportAborted (p : MonitoredPeer) : MonitoredPeer :=
  { p with state := .starving }

/-- `MonitoredPeer.__init__` body after the asserts: fresh record in Default state with
an empty cycle and no message bookkeeping. -/
def freshPeer (id ip : String) (port peerType : ℤ) (iat pt : ℤ) : MonitoredPeer :=
  { id := id, ip := ip, port := port, peerType := peerType
    isAliveTimeout := iat, peerTimeout := pt
    state := .default, timeoutTimer := none
    tsList := [], supportRequests := 0
    lastReceivedMsg := none, tsLastReceivedMsg := none }

/-- `MonitoredPeer.__init__` including its asserts (`port >= 1024`,
`peer_type in PEER_TYPES`): a failing assert raises. -/
def mkMonitoredPeer (id ip : String) (port peerType : ℤ) (iat pt : ℤ) :
    Except Unit MonitoredPeer :=
  if port ≥ 1024 then
    if peerType = 0 ∨ peerType = 1 then
      .ok (freshPeer id ip port peerType iat pt)
    else .error ()
  else .error ()

example :
    (receiveMsg 1000 .supportRequired
      (freshPeer "a" "i" 2000 1 isAliveTimeoutBound peerTimeoutBound)).state
      = PState.watched := by decide

example :
    (receiveMsg 4000 .supportRequired (receiveMsg 3000 .supportRequired
      (receiveMsg 2000 .supportRequired (receiveMsg 1000 .supportRequired
        (freshPeer "a" "i" 2000 1 isAliveTimeoutBound peerTimeoutBound))))).state
      = PState.starving := by decide

/-- Python `MonitoredSupporter.__eq__` / `__hash__`: identity is the 4-tuple
(ID, address, min_peer, max_peer).  The active-supporter list and the dead queue are
modelled as lists of these keys (Python stores aliases of the registry objects). -/
structure SupKey where
  id : ℤ
  host : String
  port : ℤ
  minPeer : ℤ
  maxPeer : ℤ
deriving DecidableEq, Repr

/-- `monitored_subjects.py`, class `MonitoredSupporter`: the per-supporter record.
The roster `supportedPeers` stores peer identity keys. -/
structure MonitoredSupporter where
  supporterId : ℤ
  addrHost : String
  addrPort : ℤ
  minPeer : ℤ
  maxPeer : ℤ
  supportedPeers : List (String × String × ℤ)
  updated : Bool
deriving DecidableEq, Repr

/-- The identity key of a supporter record. -/
def supKey (s : MonitoredSupporter) : SupKey :=
  ⟨s.supporterId, s.addrHost, s.addrPort, s.minPeer, s.maxPeer⟩

/-- `MonitoredSupporter.add_supported_peer`: idempotent append; sets the dirty flag when
the peer is actually added.  Deliberately performs no capacity check (the source's
docstring says such checks have to be performed at the caller). -/
def addSupportedPeer (pk : String × String × ℤ) (s : MonitoredSupporter) :
    MonitoredSupporter :=
  if pk ∈ s.supportedPeers then s
  else { s with updated := true, supportedPeers := s.supportedPeers ++ [pk] }

/-- `MonitoredSupporter.remove_supported_peer`: idempotent removal; sets the dirty flag
when the peer was present. -/
def removeSupportedPeer (pk : String × String × ℤ) (s : MonitoredSupporter) :
    MonitoredSupporter :=
  if pk ∈ s.supportedPeers then
    { s with supportedPeers := s.supportedPeers.erase pk, updated := true }
  else s

/-- `MonitoredSupporter.available_slots` = max_peer - roster size (an integer: the source
can drive this negative because `add_supported_peer` never checks capacity). -/
def availableSlots (s : MonitoredSupporter) : ℤ :=
  s.maxPeer - s.supportedPeers.length

/-- `MonitoredSupporter.assigned_slots` = roster size. -/
def assignedSlots (s : MonitoredSupporter) : ℕ :=
  s.supportedPeers.length

/-- `MonitoredSupporter.__init__` body after the asserts: empty roster, dirty flag set. -/
def freshSupporter (id : ℤ) (host : String) (port minP maxP : ℤ) : MonitoredSupporter :=
  { supporterId := id, addrHost := host, addrPort := port
    minPeer := minP, maxPeer := maxP, supportedPeers := [], updated := true }

/-- `MonitoredSupporter.__init__` including its asserts.  The source asserts that the
address is a 2-tuple (structural here), `addr[1] >= 1024` and `min_peer <= max_peer`;
it contains no assert for `min_peer >= 1`. -/
def mkMonitoredSupporter (id : ℤ) (host : String) (port minP maxP : ℤ) :
    Except Unit MonitoredSupporter :=
  if port ≥ 1024 then
    if minP ≤ maxP then .ok (freshSupporter id host port minP maxP)
    else .error ()
  else .error ()

/-- `supporter_monitor.py`, class `SupporterMonitor`: the coordinator state.  The single
reentrant mutex serialises all operations, so the state is modelled as a plain record
transformed by one operation at a time. -/
structure SupporterMonitor where
  monitoredPeers : List MonitoredPeer
  monitoredSupporters : List MonitoredSupporter
  activeSupporters : List SupKey
  numberOfAssignments : List (String × ℕ)
  deadSupporters : List SupKey
  isAliveTimeout : ℤ
  peerTimeout : ℤ
deriving DecidableEq, Repr

/-- `SupporterMonitor.__init__` with the given timeout configuration. -/
def initMonitor (iat pt : ℤ) : SupporterMonitor :=
  { monitoredPeers := [], monitoredSupporters := [], activeSupporters := []
    numberOfAssignments := [], deadSupporters := []
    isAliveTimeout := iat, peerTimeout := pt }

/-- Python dict lookup (`has_key` / `[]`) on the assignment-count map. -/
def lookupAssoc (l : List (String × ℕ)) (k : String) : Option ℕ :=
  (l.find? (fun kv => kv.1 = k)).map (fun kv => kv.2)

/-- Python dict store: update in place when the key exists, append otherwise. -/
def setAssoc : List (String × ℕ) → String → ℕ → List (String × ℕ)
  | [], k, v => [(k, v)]
  | kv :: rest, k, v => if kv.1 = k then (k, v) :: rest else kv :: setAssoc rest k v

/-- Registry lookup of a supporter by identity key (the stand-in for dereferencing a
Python alias of the registry object). -/
def getSup (k : SupKey) (m : SupporterMonitor) : Option MonitoredSupporter :=
  m.monitoredSupporters.find? (fun s => supKey s = k)

/-- `available_slots()` read through an aliased supporter reference. -/
def availableSlotsK (k : SupKey) (m : SupporterMonitor) : ℤ :=
  match getSup k m with
  | some s => availableSlots s
  | none => 0

/-- `assigned_slots()` read through an aliased supporter reference. -/
def assignedSlotsK (k : SupKey) (m : SupporterMonitor) : ℕ :=
  match getSup k m with
  | some s => assignedSlots s
  | none => 0

/-- Stable insertion into a descending-by-key list: a later element is placed after all
earlier elements with a greater-or-equal key, matching the stable Python
`list.sort(lambda x, y: cmp(y[1], x[1]))`. -/
def insertDescBy (f : α → ℤ) (x : α) : List α → List α
  | [] => [x]
  | y :: ys => if f y ≥ f x then y :: insertDescBy f x ys else x :: y :: ys

/-- Stable descending sort by an integer key. -/
def sortDescBy (f : α → ℤ) (l : List α) : List α :=
  l.foldl (fun acc x => insertDescBy f x acc) []

/-- Stable insertion into an ascending-by-key list, matching the stable Python
`list.sort(lambda x, y: cmp(x[1], y[1]))`. -/
def insertAscBy (f : α → ℤ) (x : α) : List α → List α
  | [] => [x]
  | y :: ys => if f y ≤ f x then y :: insertAscBy f x ys else x :: y :: ys

/-- Stable ascending sort by an integer key. -/
def sortAscBy (f : α → ℤ) (l : List α) : List α :=
  l.foldl (fun acc x => insertAscBy f x acc) []

/-- `SupporterMonitor.order_active_supporters`: sort the active list by decreasing
available slots (stable). -/
def orderActiveSupporters (m : SupporterMonitor) : SupporterMonitor :=
  { m with activeSupporters := sortDescBy (fun k => availableSlotsK k m) m.activeSupporters }

/-- `SupporterMonitor.filter_peers_by_state`. -/
def filterPeersByState (st : PState) (m : SupporterMonitor) : List MonitoredPeer :=
  m.monitoredPeers.filter (fun p => p.state = st)

/-- `SupporterMonitor.remaining_active_supporters_with_capacity`: at least one active
supporter, and the head of the (ordered) active list has a free slot. -/
def remainingActiveSupportersWithCapacity (m : SupporterMonitor) : Bool :=
  match m.activeSupporters with
  | [] => false
  | k :: _ => decide (availableSlotsK k m > 0)

/-- Apply `f` to the first peer record whose ID matches (Python
`received_peer_message` finds the first peer with `peer_id == peer.get_id()` and breaks;
an unknown ID is only logged). -/
def updateFirstById (id : String) (f : MonitoredPeer → MonitoredPeer) :
    List MonitoredPeer → List MonitoredPeer
  | [] => []
  | q :: rest => if q.id = id then f q :: rest else q :: updateFirstById id f rest

/-- `SupporterMonitor.received_peer_message`: dispatch a message to the first monitored
peer with the given ID. -/
def receivedPeerMessage (now : ℤ) (msg : Msg) (peerId : String) (m : SupporterMonitor) :
    SupporterMonitor :=
  { m with monitoredPeers := updateFirstById peerId (receiveMsg now msg) m.monitoredPeers }

/-- `SupporterMonitor.register_monitored_peer`: construct the record (asserts may
raise), reject duplicates by identity triple, then emit a synthetic PEER_REGISTERED
message through `received_peer_message`.  In Python the non-duplicate return value is the
registered object after that message (aliasing), which the final lookup reproduces. -/
def registerMonitoredPeer (now : ℤ) (id ip : String) (port peerType : ℤ)
    (m : SupporterMonitor) : Except Unit (Option MonitoredPeer × SupporterMonitor) := do
  let mp ← mkMonitoredPeer id ip port peerType m.isAliveTimeout m.peerTimeout
  let isDup := m.monitoredPeers.any (fun q => peerKey q = peerKey mp)
  let m1 := if isDup then m else { m with monitoredPeers := m.monitoredPeers ++ [mp] }
  let m2 := receivedPeerMessage now .peerRegistered id m1
  let ret := if isDup then none else m2.monitoredPeers.find? (fun q => peerKey q = peerKey mp)
  return (ret, m2)

/-- `SupporterMonitor.unregister_monitored_peer`: idempotent removal from the peer
registry (rosters are untouched, exactly as in the source). -/
def unregisterMonitoredPeer (pk : String × String × ℤ) (m : SupporterMonitor) :
    SupporterMonitor :=
  { m with monitoredPeers := m.monitoredPeers.filter (fun q => peerKey q ≠ pk) }

/-- `SupporterMonitor.register_monitored_supporter`: construct the record (asserts may
raise), reject duplicates by the 4-tuple key, otherwise append to the registry (and
invoke `dispatcher.register_proxy`, a pure collaborator effect with no monitor state). -/
def registerMonitoredSupporter (id : ℤ) (host : String) (port minP maxP : ℤ)
    (m : SupporterMonitor) : Except Unit (Option MonitoredSupporter × SupporterMonitor) := do
  let s ← mkMonitoredSupporter id host port minP maxP
  if m.monitoredSupporters.any (fun t => supKey t = supKey s) then
    return (none, m)
  else
    return (some s, { m with monitoredSupporters := m.monitoredSupporters ++ [s] })

/-- `MonitoredSupporter.cancel_support_for_all_peers` combined with the registry view:
every peer in the roster is removed and forced to Starving (`support_aborted`). -/
def cancelSupportForAllPeers (k : SupKey) (m : SupporterMonitor) : SupporterMonitor :=
  match getSup k m with
  | none => m
  | some s =>
      { m with
        monitoredPeers := m.monitoredPeers.map
          (fun q => if peerKey q ∈ s.supportedPeers then supportAborted q else q)
        monitoredSupporters := m.monitoredSupporters.map
          (fun t => if supKey t = k then { t with supportedPeers := [], updated := true } else t) }

/-- `SupporterMonitor.unregister_monitored_supporter`: cancel all support, then remove
from the registry.  The source does not remove the supporter from the active list. -/
def unregisterMonitoredSupporter (k : SupKey) (m : SupporterMonitor) : SupporterMonitor :=
  if m.monitoredSupporters.any (fun t => supKey t = k) then
    let m1 := cancelSupportForAllPeers k m
    { m1 with monitoredSupporters := m1.monitoredSupporters.filter (fun t => supKey t ≠ k) }
  else m

/-- Apply `f` to the first peer record with the given identity key (the stand-in for a
mutation through a Python alias of a registered peer object). -/
def updateFirstByKey (pk : String × String × ℤ) (f : MonitoredPeer → MonitoredPeer) :
    List MonitoredPeer → List MonitoredPeer
  | [] => []
  | q :: rest => if peerKey q = pk then f q :: rest else q :: updateFirstByKey pk f rest

/-- `SupporterMonitor.assign_peer_to_supporter`: a no-op when the supporter is not
active; otherwise add the peer to the roster, re-order the active list, deliver
PEER_SUPPORTED to the peer, and update the assignment-count map.  The count update is
literally `setdefault(peer_id, 1)` followed by `+= 1`. -/
def assignPeerToSupporter (now : ℤ) (p : MonitoredPeer) (k : SupKey)
    (m : SupporterMonitor) : SupporterMonitor :=
  if k ∈ m.activeSupporters then
    let sups := m.monitoredSupporters.map
      (fun s => if supKey s = k then addSupportedPeer (peerKey p) s else s)
    let m1 := { m with monitoredSupporters := sups }
    let m2 := orderActiveSupporters m1
    let peers := updateFirstByKey (peerKey p) (receiveMsg now .peerSupported) m2.monitoredPeers
    let m3 := { m2 with monitoredPeers := peers }
    let cnt := (lookupAssoc m3.numberOfAssignments p.id).getD 1
    { m3 with numberOfAssignments := setAssoc m3.numberOfAssignments p.id (cnt + 1) }
  else m

/-- `SupporterMonitor._remove_timedout_peers`: unregister every peer whose last message
of any kind is at least PEER_REMOVAL_TIME old.  (A record that never received a message
would make the Python subtraction raise; the coordinator always emits PEER_REGISTERED at
registration, so every registered record carries a timestamp.) -/
def removeTimedoutPeers (now : ℤ) (m : SupporterMonitor) : SupporterMonitor :=
  let stale := fun (p : MonitoredPeer) =>
    match p.tsLastReceivedMsg with
    | some t => decide (now - t ≥ peerRemovalTime)
    | none => false
  { m with monitoredPeers := m.monitoredPeers.filter (fun p => ¬ stale p = true) }

/-- `SupporterMonitor._remove_dead_supporters`: unregister every supporter in the dead
queue.  The source drains the queue without clearing it. -/
def removeDeadSupporters (m : SupporterMonitor) : SupporterMonitor :=
  m.deadSupporters.foldl (fun acc k => unregisterMonitoredSupporter k acc) m

/-- `SupporterMonitor._enforce_update_of_monitored_peers`: for each peer, if a request
timestamp exists (and is truthy: Python `if mp.get_ts_last_request()` is false for the
float 0.0) and the last request is more than 10 seconds (the literal threshold in
`_enforce_update_of_monitored_peers`, not `_is_alive_timeout`) old, force Default;
otherwise run one tick transition. -/
def enforceUpdateOfMonitoredPeers (now : ℤ) (m : SupporterMonitor) : SupporterMonitor :=
  let step := fun (p : MonitoredPeer) =>
    match p.getTsLastRequest with
    | some t => if t ≠ 0 ∧ now - t > 10000 then { p with state := .default } else transition now p
    | none => transition now p
  { m with monitoredPeers := m.monitoredPeers.map step }

/-- `MonitoredSupporter.update_supported_peer_list`: remove every roster peer whose state
(read through the registry, the stand-in for the Python alias) is Default. -/
def updateSupportedPeerList (m : SupporterMonitor) (s : MonitoredSupporter) :
    MonitoredSupporter :=
  let isDefault := fun (pk : String × String × ℤ) =>
    match m.monitoredPeers.find? (fun q => peerKey q = pk) with
    | some q => decide (q.state = .default)
    | none => false
  let kept := s.supportedPeers.filter (fun pk => ¬ isDefault pk = true)
  let flag := s.updated || decide (kept.length ≠ s.supportedPeers.length)
  { s with supportedPeers := kept, updated := flag }

/-- `SupporterMonitor._enforce_update_of_monitored_supporters`: refresh every active
supporter's roster, then drop from the active list every supporter whose roster became
empty. -/
def enforceUpdateOfMonitoredSupporters (m : SupporterMonitor) : SupporterMonitor :=
  let refreshOne := fun (acc : SupporterMonitor) (k : SupKey) =>
    let sups := acc.monitoredSupporters.map
      (fun s => if supKey s = k then updateSupportedPeerList acc s else s)
    { acc with monitoredSupporters := sups }
  let m1 := m.activeSupporters.foldl refreshOne m
  { m1 with activeSupporters := m1.activeSupporters.filter (fun k => assignedSlotsK k m1 ≠ 0) }

/-- `SupporterMonitor.sort_starving_peers`: stable descending sort by historical
assignment count (0 for peers absent from the map). -/
def sortStarvingPeers (m : SupporterMonitor) (peers : List MonitoredPeer) :
    List MonitoredPeer :=
  sortDescBy (fun p => ((lookupAssoc m.numberOfAssignments p.id).getD 0 : ℤ)) peers

/-- The while-loop of `SupporterMonitor._assign_starving_peers_to_active_supporters`:
take the first remaining starving peer, assign it to the head of the active list, and
re-order; stop as soon as no active supporter has a free slot. -/
def assignStarvingLoop (now : ℤ) : List MonitoredPeer → SupporterMonitor → SupporterMonitor
  | [], m => m
  | p :: rest, m =>
      match m.activeSupporters with
      | [] => m
      | k :: _ =>
          if availableSlotsK k m > 0 then
            assignStarvingLoop now rest (orderActiveSupporters (assignPeerToSupporter now p k m))
          else m

/-- `SupporterMonitor._assign_starving_peers_to_active_supporters`. -/
def assignStarvingPeersToActiveSupporters (now : ℤ) (m : SupporterMonitor) :
    SupporterMonitor :=
  assignStarvingLoop now (sortStarvingPeers m (filterPeersByState .starving m)) m

/-- `SupporterMonitor.activate_supporter`: append to the active list unless the
supporter already has assigned slots. -/
def activateSupporter (k : SupKey) (m : SupporterMonitor) : SupporterMonitor :=
  if assignedSlotsK k m ≠ 0 then m
  else { m with activeSupporters := m.activeSupporters ++ [k] }

/-- `sorted_list_of_inactive_supporters` inside
`_check_for_activation_of_new_supporters`: registered supporters not in the active list,
stably sorted by ascending min_peer. -/
def sortedInactiveSupporters (m : SupporterMonitor) : List SupKey :=
  sortAscBy (fun k => k.minPeer)
    ((m.monitoredSupporters.filter (fun s => supKey s ∉ m.activeSupporters)).map supKey)

/-- `retrieve_activation_index`, phrased as the length of the accepted prefix
(`activate_up_to_index + 1`): at each step the supporter is accepted when the remaining
starving count is at least its min_peer, and its available slots are then subtracted. -/
def activationPrefixLen (m : SupporterMonitor) (n : ℤ) : List SupKey → ℕ
  | [] => 0
  | k :: rest =>
      if n ≥ k.minPeer then 1 + activationPrefixLen m (n - availableSlotsK k m) rest
      else 0

/-- The inner for-loop of `activate_supporters_and_assign_peers`: assign the remaining
starving peers one by one to `target` and stop as soon as `target`'s available slots
read exactly 0; returns the new state and the remaining starving peers.  The source
passes `inactive_supporters[0][0]` — the head of the sorted inactive list — as the
target on every outer iteration. -/
def innerAssign (now : ℤ) (target : SupKey) :
    List MonitoredPeer → SupporterMonitor → SupporterMonitor × List MonitoredPeer
  | [], m => (m, [])
  | p :: rest, m =>
      let m1 := assignPeerToSupporter now p target m
      if availableSlotsK target m1 = 0 then (m1, rest)
      else innerAssign now target rest m1

/-- The outer for-loop of `activate_supporters_and_assign_peers`: activate each accepted
supporter in order, but (as literally written in the source) always assign the remaining
starving peers to `inactive_supporters[0][0]`, the first supporter of the sorted
inactive list. -/
def activateLoop (now : ℤ) (first : SupKey) :
    List SupKey → List MonitoredPeer → SupporterMonitor → SupporterMonitor
  | [], _, m => m
  | k :: rest, peers, m =>
      let m1 := activateSupporter k m
      let r := innerAssign now first peers m1
      activateLoop now first rest r.2 r.1

/-- `SupporterMonitor._check_for_activation_of_new_supporters`: compute the starving
set and the sorted inactive list, accept an activation prefix, then activate and assign;
the active list is re-ordered only when the prefix is non-empty. -/
def checkForActivationOfNewSupporters (now : ℤ) (m : SupporterMonitor) :
    SupporterMonitor :=
  let starving := filterPeersByState .starving m
  let inactive := sortedInactiveSupporters m
  let len := activationPrefixLen m (starving.length : ℤ) inactive
  match inactive, len with
  | [], _ => m
  | _, 0 => m
  | k0 :: _, n => orderActiveSupporters (activateLoop now k0 (inactive.take n) starving m)

/-- The pure phases of `SupporterMonitor.update_states` with the tests' no-op mock
dispatcher (`MockSupporteeListDispatcher`): probing marks nothing dead and dispatching
is a no-op, exactly as in the deterministic unit-test scenarios. -/
def updateStatesCore (now : ℤ) (m : SupporterMonitor) : SupporterMonitor :=
  let m1 := removeTimedoutPeers now m
  let m2 := removeDeadSupporters m1
  let m3 := enforceUpdateOfMonitoredPeers now m2
  let m4 := enforceUpdateOfMonitoredSupporters m3
  let m5 := assignStarvingPeersToActiveSupporters now m4
  checkForActivationOfNewSupporters now m5

/-- The two dispatcher calls made inside a tick (`supporter_adapter.py`,
`SupporteeListDispatcher.query_all_supporters` and `dispatch_peer_lists`), abstracted as
possibly-raising operations: `probe` returns the supporters to enqueue on the dead queue,
`dispatch` pushes the dirty rosters. -/
structure DispatcherModel where
  probe : SupporterMonitor → Except String (List SupKey)
  dispatch : SupporterMonitor → Except String Unit

/-- The observable outcome of one `SupporterMonitor.update_states` call: the resulting
state or the escaping exception, whether the lock was released, and whether
`schedule_next_asynchronous_update` was reached. -/
structure TickOutcome where
  result : Except String SupporterMonitor
  lockReleased : Bool
  nextTickScheduled : Bool
deriving Repr

/-- `SupporterMonitor.update_states` with its control flow made explicit: the body runs
under `lock.acquire(); try: ...; finally: lock.release()`, and
`schedule_next_asynchronous_update()` stands on the line after the try/finally.  There is
no except clause, so the `finally` releases the lock in both cases, while the next tick
is scheduled only on normal completion. -/
def updateStates (d : DispatcherModel) (now : ℤ) (m : SupporterMonitor) : TickOutcome :=
  let body : Except String SupporterMonitor := do
    let m1 := removeTimedoutPeers now m
    let dead ← d.probe m1
    let m1b := { m1 with deadSupporters := m1.deadSupporters ++ dead }
    let m2 := removeDeadSupporters m1b
    let m3 := enforceUpdateOfMonitoredPeers now m2
    let m4 := enforceUpdateOfMonitoredSupporters m3
    let m5 := assignStarvingPeersToActiveSupporters now m4
    let m6 := checkForActivationOfNewSupporters now m5
    let _ ← d.dispatch m6
    pure m6
  match body with
  | .ok mFinal => { result := .ok mFinal, lockReleased := true, nextTickScheduled := true }
  | .error e => { result := .error e, lockReleased := true, nextTickScheduled := false }

/-- The tests' `MockSupporteeListDispatcher`: probing finds nothing, dispatching never
fails. -/
def mockDispatcher : DispatcherModel :=
  { probe := fun _ => .ok [], dispatch := fun _ => .ok () }

/-- Deliver `n` SUPPORT_REQUIRED messages at time `now` to each listed peer ID in a
round-robin, as the unit tests do (`for _ in xrange(PEER_REQUIRED_MSGS): ...`). -/
def sendRounds (now : ℤ) (n : ℕ) (ids : List String) (m : SupporterMonitor) :
    SupporterMonitor :=
  match n with
  | 0 => m
  | n + 1 =>
      sendRounds now n ids
        (ids.foldl (fun acc id => receivedPeerMessage now .supportRequired id acc) m)

/-- Test scenario `testActivatingMoreThanOneSupporterAtOnce`: supporters S1
(min=2, max=2) and S2 (min=1, max=1) and three peers driven to Starving, before the
tick.  Timeouts are the test-suite values (is_alive 2 s, peer_timeout 1 s); all events
happen at t = 100 s. -/
def scenarioAPre : Except Unit SupporterMonitor := do
  let m0 := initMonitor 2000 1000
  let r1 ← registerMonitoredSupporter 1 "192.168.2.10" 5000 2 2 m0
  let r2 ← registerMonitoredSupporter 2 "192.168.2.11" 5001 1 1 r1.2
  let r3 ← registerMonitoredPeer 100000 "F" "192.168.2.50" 10000 1 r2.2
  let r4 ← registerMonitoredPeer 100000 "G" "192.168.2.51" 10001 1 r3.2
  let r5 ← registerMonitoredPeer 100000 "H" "192.168.2.52" 10002 1 r4.2
  return sendRounds 100000 peerRequiredMsgs ["F", "G", "H"] r5.2

/-- Scenario A after one tick at t = 100 s. -/
def scenarioAPost : Except Unit SupporterMonitor :=
  scenarioAPre.map (updateStatesCore 100000)

/-- The identity key of scenario A's supporter S1 (min=2, max=2). -/
def keyA1 : SupKey := ⟨1, "192.168.2.10", 5000, 2, 2⟩

/-- The identity key of scenario A's supporter S2 (min=1, max=1). -/
def keyA2 : SupKey := ⟨2, "192.168.2.11", 5001, 1, 1⟩

/-- Test scenario `testActivateOneSupporterFromMultipleInactiveSupporters` (= spec
scenario 5): supporters S1 (min=2, max=3) and S2 (min=1, max=3) and three peers driven
to Starving, before the tick. -/
def scenarioBPre : Except Unit SupporterMonitor := do
  let m0 := initMonitor 2000 1000
  let r1 ← registerMonitoredSupporter 1 "192.168.2.10" 5000 2 3 m0
  let r2 ← registerMonitoredSupporter 2 "192.168.2.11" 5001 1 3 r1.2
  let r3 ← registerMonitoredPeer 100000 "F" "192.168.2.50" 10000 1 r2.2
  let r4 ← registerMonitoredPeer 100000 "G" "192.168.2.51" 10001 1 r3.2
  let r5 ← registerMonitoredPeer 100000 "H" "192.168.2.52" 10002 1 r4.2
  return sendRounds 100000 peerRequiredMsgs ["F", "G", "H"] r5.2

/-- Scenario B after one tick at t = 100 s. -/
def scenarioBPost : Except Unit SupporterMonitor :=
  scenarioBPre.map (updateStatesCore 100000)

/-- The identity key of scenario B's supporter S1 (min=2, max=3). -/
def keyB1 : SupKey := ⟨1, "192.168.2.10", 5000, 2, 3⟩

/-- The identity key of scenario B's supporter S2 (min=1, max=3). -/
def keyB2 : SupKey := ⟨2, "192.168.2.11", 5001, 1, 3⟩

/-- A dispatcher whose `dispatch_peer_lists` raises (as the XML-RPC proxy calls in
`supporter_adapter.py` can, e.g. a `KeyError` on a missing proxy entry). -/
def raisingDispatcher : DispatcherModel :=
  { probe := fun _ => .ok [], dispatch := fun _ => .error "Connection refused" }

/-- C1.  The roster-bound invariant fails on a reachable state: in scenario A
(supporters S1 min=2/max=2 and S2 min=1/max=1, three starving peers — the configuration
of the unit test `testActivatingMoreThanOneSupporterAtOnce`), a single tick leaves
supporter S2 with 3 peers in its roster although its max_peer is 1.  The cause is
`activate_supporters_and_assign_peers`, which assigns every remaining starving peer to
`inactive_supporters[0][0]` while `add_supported_peer` performs no capacity check. -/
theorem rosterBoundViolatedOnReachableState :
    scenarioAPost.map
        (fun m => (getSup keyA2 m).map
          (fun s => ((s.supportedPeers.length : ℤ), s.maxPeer)))
      = .ok (some (3, 1)) := by
  decide

/-- C2.  The activation phase does not assign peers to the supporter being activated:
in scenario A the sorted inactive list is [S2, S1] and both supporters are accepted
into the activation prefix (length 2), yet after the tick S1's roster is empty and S2
(the head of the inactive list) holds all three peers, one of which was assigned during
S1's activation step and two of which exceed S2's capacity. -/
theorem activationAssignsToFirstInactiveSupporter :
    (scenarioAPre.map
        (fun m =>
          (sortedInactiveSupporters m,
            activationPrefixLen m ((filterPeersByState .starving m).length : ℤ)
              (sortedInactiveSupporters m)))
      = .ok ([keyA2, keyA1], 2))
    ∧ (scenarioAPost.map
        (fun m =>
          ((getSup keyA1 m).map (fun s => s.supportedPeers.length),
            (getSup keyA2 m).map (fun s => s.supportedPeers.length)))
      = .ok (some 0, some 3)) := by
  constructor
  · decide
  · decide

/-- C4.  `update_states` has a `try/finally` with no `except`: when the dispatcher
raises during the dispatch phase, the lock is released but the exception escapes the
tick and `schedule_next_asynchronous_update` on the line after the `finally` is never
reached, so the next tick is not scheduled.  (With the no-op mock dispatcher the same
tick completes and reschedules.) -/
theorem tickExceptionEscapesAndStopsRescheduling :
    (updateStates raisingDispatcher 100000 (initMonitor 2000 1000)).result
        = .error "Connection refused"
    ∧ (updateStates raisingDispatcher 100000 (initMonitor 2000 1000)).lockReleased = true
    ∧ (updateStates raisingDispatcher 100000 (initMonitor 2000 1000)).nextTickScheduled
        = false
    ∧ (updateStates mockDispatcher 100000 (initMonitor 2000 1000)).nextTickScheduled
        = true := by
  refine ⟨by decide, by decide, by decide, by decide⟩

/-- C7.  Spec scenario 5 (unit test `testActivateOneSupporterFromMultipleInactive`):
with S1 (min=2, max=3) and S2 (min=1, max=3) registered and exactly three peers
Starving, one tick activates exactly one supporter — S2, the first under
ascending-min_peer ordering (its min_peer is strictly smaller than S1's) — and all three
peers end up Supported. -/
theorem singleSupporterAbsorbsStarvingSet :
    (scenarioBPre.map (fun m => (filterPeersByState .starving m).length) = .ok 3)
    ∧ (scenarioBPost.map
        (fun m =>
          (m.activeSupporters,
            (filterPeersByState .supported m).length,
            (filterPeersByState .starving m).length))
      = .ok ([keyB2], 3, 0))
    ∧ keyB2.minPeer < keyB1.minPeer := by
  refine ⟨by decide, by decide, by decide⟩

/-- A Starving peer whose request window is stale (not alive at t = 30 s) and whose
last received message is PEER_SUPPORTED — reachable, e.g., when a peer was assigned
(last message PEER_SUPPORTED), its supporter was unregistered (`support_aborted` forces
Starving without touching the message bookkeeping) and its requests have gone stale. -/
def starvingAbortedPeer : MonitoredPeer :=
  { id := "p1", ip := "10.0.0.9", port := 2000, peerType := 1
    isAliveTimeout := isAliveTimeoutBound, peerTimeout := peerTimeoutBound
    state := .starving, timeoutTimer := none
    tsList := [10000], supportRequests := 4
    lastReceivedMsg := some .peerSupported, tsLastReceivedMsg := some 10000 }

/-- C3, counterexample.  A Starving peer with `peer_is_alive()` false whose last message
kind is PEER_SUPPORTED does not end in Default: the trailing non-elif
`if msg_type == MSG_PEER_SUPPORTED` in `StarvingState.transition` overrides the
Default transition, so the step ends in Supported. -/
theorem starvingDeadSupportedCounterexample :
    peerIsAlive 30000 starvingAbortedPeer = false
    ∧ starvingAbortedPeer.state = .starving
    ∧ starvingAbortedPeer.lastReceivedMsg = some .peerSupported
    ∧ (transition 30000 starvingAbortedPeer).state = .supported
    ∧ (transition 30000 starvingAbortedPeer).state ≠ .default := by
  refine ⟨by decide, by decide, by decide, by decide, by decide⟩

/-- C3, amended.  For a Starving peer with `peer_is_alive()` false, a transition step
resets the cycle and ends in Default for every last-message kind except PEER_SUPPORTED;
when the last message kind is PEER_SUPPORTED the cycle is still reset but the resulting
state is Supported. -/
theorem starvingDeadTransitionRule (now : ℤ) (p : MonitoredPeer)
    (hs : p.state = .starving) (hd : peerIsAlive now p = false) :
    ((p.lastReceivedMsg ≠ some .peerSupported → (transition now p).state = .default)
      ∧ (p.lastReceivedMsg = some .peerSupported → (transition now p).state = .supported))
    ∧ (transition now p).tsList = [] ∧ (transition now p).supportRequests = 0 := by
  by_cases hm : p.lastReceivedMsg = some .peerSupported <;>
    simp [transition, hs, hd, hm, resetSupportCycle]

/-- Closed instance of `starvingDeadTransitionRule` at `starvingAbortedPeer`. -/
theorem starvingDeadTransitionRuleWitness :
    ((starvingAbortedPeer.lastReceivedMsg ≠ some .peerSupported →
        (transition 30000 starvingAbortedPeer).state = .default)
      ∧ (starvingAbortedPeer.lastReceivedMsg = some .peerSupported →
        (transition 30000 starvingAbortedPeer).state = .supported))
    ∧ (transition 30000 starvingAbortedPeer).tsList = []
      ∧ (transition 30000 starvingAbortedPeer).supportRequests = 0 :=
  starvingDeadTransitionRule 30000 starvingAbortedPeer (by decide) (by decide)

/-- C6.  For a Supported peer, one transition step ends in Default exactly when
`peer_is_alive()` is false (in which case the cycle is also reset) or the last message
kind is SUPPORT_NOT_NEEDED with `peer_timed_out()` true; otherwise the record is left
entirely unchanged.  The malformed-looking guard
`msg == SNN and peer_timed_out() or not peer_is_alive()` is only reached when the peer
is alive, so its `or not peer_is_alive()` disjunct is dead and the rule above is exactly
what the code implements. -/
theorem supportedTransitionRule (now : ℤ) (p : MonitoredPeer)
    (hs : p.state = .supported) :
    ((transition now p).state = .default ↔
      (peerIsAlive now p = false ∨
        (p.lastReceivedMsg = some .supportNotNeeded ∧ peerTimedOut now p = true)))
    ∧ (¬ (peerIsAlive now p = false ∨
          (p.lastReceivedMsg = some .supportNotNeeded ∧ peerTimedOut now p = true)) →
        transition now p = p)
    ∧ (peerIsAlive now p = false →
        (transition now p).tsList = [] ∧ (transition now p).supportRequests = 0) := by
  by_cases ha : peerIsAlive now p = false
  · by_cases hm : p.lastReceivedMsg = some .supportNotNeeded <;>
      simp [transition, hs, ha, hm, resetSupportCycle]
  · by_cases hm : p.lastReceivedMsg = some .supportNotNeeded <;>
      by_cases ht : peerTimedOut now p = true <;>
        simp [transition, hs, ha, hm, ht]

/-- A Supported peer that is no longer alive at t = 30 s (stale request window). -/
def supportedStalePeer : MonitoredPeer :=
  { id := "p2", ip := "10.0.0.8", port := 2001, peerType := 1
    isAliveTimeout := isAliveTimeoutBound, peerTimeout := peerTimeoutBound
    state := .supported, timeoutTimer := some 10000
    tsList := [10000], supportRequests := 4
    lastReceivedMsg := some .supportNotNeeded, tsLastReceivedMsg := some 10000 }

/-- Closed instance of `supportedTransitionRule` at `supportedStalePeer`. -/
theorem supportedTransitionRuleWitness :
    (((transition 30000 supportedStalePeer).state = .default ↔
      (peerIsAlive 30000 supportedStalePeer = false ∨
        (supportedStalePeer.lastReceivedMsg = some .supportNotNeeded
          ∧ peerTimedOut 30000 supportedStalePeer = true)))
    ∧ (¬ (peerIsAlive 30000 supportedStalePeer = false ∨
          (supportedStalePeer.lastReceivedMsg = some .supportNotNeeded
            ∧ peerTimedOut 30000 supportedStalePeer = true)) →
        transition 30000 supportedStalePeer = supportedStalePeer)
    ∧ (peerIsAlive 30000 supportedStalePeer = false →
        (transition 30000 supportedStalePeer).tsList = []
          ∧ (transition 30000 supportedStalePeer).supportRequests = 0)) :=
  supportedTransitionRule 30000 supportedStalePeer (by decide)

/-- C5, counterexample.  `register_supporter` with `min_peer = 0` (< 1), `max_peer = 3`
and port 2000 ≥ 1024 is not rejected: the call returns the new supporter and the
registry grows, because `MonitoredSupporter.__init__` asserts `min_peer <= max_peer` and
`addr[1] >= 1024` but nothing about `min_peer >= 1`. -/
theorem registerSupporterAcceptsZeroMinPeer :
    (registerMonitoredSupporter 7 "supporter.example" 2000 0 3 (initMonitor 2000 1000)).map
        (fun r => (r.1.isSome, r.2.monitoredSupporters.length))
      = .ok (true, 1) := by
  decide

/-- C5, amended.  `register_supporter` validates `min_peer ≤ max_peer` and
`port ≥ 1024` (raising on violation), but does not validate `min_peer ≥ 1`: every call
with `min_peer < 1`, the other bounds holding and no duplicate registered, succeeds and
appends the supporter to the registry. -/
theorem registerSupporterZeroMinPeerAccepted (id : ℤ) (host : String)
    (port minP maxP : ℤ) (m : SupporterMonitor)
    (_hmin : minP < 1) (hb : minP ≤ maxP) (hp : port ≥ 1024)
    (hdup : m.monitoredSupporters.any
      (fun t => supKey t = supKey (freshSupporter id host port minP maxP)) = false) :
    registerMonitoredSupporter id host port minP maxP m
      = .ok (some (freshSupporter id host port minP maxP),
          { m with monitoredSupporters :=
              m.monitoredSupporters ++ [freshSupporter id host port minP maxP] }) := by
  unfold registerMonitoredSupporter mkMonitoredSupporter
  rw [if_pos hp, if_pos hb]
  simp only [Bind.bind, Except.bind, hdup]
  rfl

/-- Closed instance of `registerSupporterZeroMinPeerAccepted` with `min_peer = 0`. -/
theorem registerSupporterZeroMinPeerAcceptedWitness :
    registerMonitoredSupporter 7 "supporter.example" 2000 0 3 (initMonitor 2000 1000)
      = .ok (some (freshSupporter 7 "supporter.example" 2000 0 3),
          { initMonitor 2000 1000 with monitoredSupporters :=
              (initMonitor 2000 1000).monitoredSupporters
                ++ [freshSupporter 7 "supporter.example" 2000 0 3] }) :=
  registerSupporterZeroMinPeerAccepted 7 "supporter.example" 2000 0 3
    (initMonitor 2000 1000) (by decide) (by decide) (by decide) (by decide)

/-- Looking up a key right after storing it yields the stored value. -/
theorem lookupAssoc_setAssoc (l : List (String × ℕ)) (k : String) (v : ℕ) :
    lookupAssoc (setAssoc l k v) k = some v := by
  induction l with
  | nil => simp [setAssoc, lookupAssoc]
  | cons kv rest ih =>
      by_cases h : kv.1 = k
      · simp [setAssoc, lookupAssoc, h]
      · simp only [setAssoc, if_neg h]
        simpa [lookupAssoc, List.find?_cons, h] using ih

/-- An always-alive Starving peer used to exercise `assign_peer_to_supporter`. -/
def assignablePeer : MonitoredPeer :=
  { id := "p3", ip := "10.0.0.7", port := 2002, peerType := 1
    isAliveTimeout := isAliveTimeoutBound, peerTimeout := peerTimeoutBound
    state := .starving, timeoutTimer := none
    tsList := [19000, 19200, 19400, 19600], supportRequests := 4
    lastReceivedMsg := some .supportRequired, tsLastReceivedMsg := some 19600 }

/-- A registered, active, empty supporter used to exercise
`assign_peer_to_supporter`. -/
def assignableSupporter : MonitoredSupporter :=
  freshSupporter 3 "10.0.0.3" 4000 1 5

/-- A monitor state holding `assignablePeer` (never assigned before: the
assignment-count map is empty) and the active supporter `assignableSupporter`. -/
def assignMonitor : SupporterMonitor :=
  { monitoredPeers := [assignablePeer]
    monitoredSupporters := [assignableSupporter]
    activeSupporters := [supKey assignableSupporter]
    numberOfAssignments := [], deadSupporters := []
    isAliveTimeout := isAliveTimeoutBound, peerTimeout := peerTimeoutBound }

/-- C9, counterexample.  After a peer's first-ever assignment the assignment-count map
holds 2, not 1: `assign_peer_to_supporter` runs `setdefault(peer_id, 1)` and then
`+= 1`. -/
theorem assignmentCountAfterFirstAssignment :
    lookupAssoc assignMonitor.numberOfAssignments "p3" = none
    ∧ lookupAssoc
        (assignPeerToSupporter 20000 assignablePeer (supKey assignableSupporter)
          assignMonitor).numberOfAssignments "p3"
      = some 2 := by
  refine ⟨by decide, by decide⟩

/-- C9, amended.  For every assignment through an active supporter, the stored count
becomes `(previous value, defaulting to 1 when the peer was never assigned) + 1`; the
map therefore holds one more than the number of assignments ever made, starting at 2
after the first. -/
theorem assignmentCountIncrement (now : ℤ) (p : MonitoredPeer) (k : SupKey)
    (m : SupporterMonitor) (h : k ∈ m.activeSupporters) :
    lookupAssoc (assignPeerToSupporter now p k m).numberOfAssignments p.id
      = some ((lookupAssoc m.numberOfAssignments p.id).getD 1 + 1) := by
  unfold assignPeerToSupporter
  rw [if_pos h]
  exact lookupAssoc_setAssoc _ _ _

/-- Closed instance of `assignmentCountIncrement` at `assignMonitor`. -/
theorem assignmentCountIncrementWitness :
    lookupAssoc
        (assignPeerToSupporter 20000 assignablePeer (supKey assignableSupporter)
          assignMonitor).numberOfAssignments assignablePeer.id
      = some ((lookupAssoc assignMonitor.numberOfAssignments assignablePeer.id).getD 1
          + 1) :=
  assignmentCountIncrement 20000 assignablePeer (supKey assignableSupporter)
    assignMonitor (by decide)

/-- The operations a peer record undergoes (cf. §4.1 of the design): receiving a
message of any kind, a tick transition (`tick_transition`), and a cycle reset. -/
inductive PeerOp where
  | recvMsg (msg : Msg)
  | tickStep
  | resetCycleOp
deriving DecidableEq, Repr

/-- Apply one peer operation at clock value `t`. -/
def applyPeerOp (t : ℤ) : PeerOp → MonitoredPeer → MonitoredPeer
  | .recvMsg msg => receiveMsg t msg
  | .tickStep => transition t
  | .resetCycleOp => resetSupportCycle

/-- Apply a timed sequence of peer operations in order. -/
def applyPeerOps (ops : List (ℤ × PeerOp)) (p : MonitoredPeer) : MonitoredPeer :=
  ops.foldl (fun q top => applyPeerOp top.1 top.2 q) p

/-- The request-window invariant at clock value `t`: at most PEER_REQUIRED_MSGS entries,
nondecreasing, and all entries at most `t`. -/
abbrev windowInv (p : MonitoredPeer) (t : ℤ) : Prop :=
  p.tsList.length ≤ peerRequiredMsgs ∧ p.tsList.Chain' (· ≤ ·) ∧ ∀ x ∈ p.tsList, x ≤ t

/-- A transition step either leaves the request window unchanged or clears it
(`reset_support_cycle`). -/
theorem transition_tsList (now : ℤ) (p : MonitoredPeer) :
    (transition now p).tsList = p.tsList ∨ (transition now p).tsList = [] := by
  obtain ⟨i, ip, pt, ty, iat, ptm, st, tt, ts, sr, lm, tlm⟩ := p
  cases st <;>
    simp only [transition, resetSupportCycle] <;>
    split_ifs <;> simp

/-- A transition step preserves the request-window invariant. -/
theorem windowInv_transition (now t : ℤ) (p : MonitoredPeer) (h : windowInv p t) :
    windowInv (transition now p) t := by
  rcases transition_tsList now p with he | he <;>
    refine ⟨?_, ?_, ?_⟩ <;> rw [he] <;>
      first
        | exact h.1
        | exact h.2.1
        | exact h.2.2
        | simp

/-- The message-specific side effects preserve the request-window invariant, moving the
clock forward to the receipt time. -/
theorem windowInv_msgHandler (now t : ℤ) (msg : Msg) (p : MonitoredPeer)
    (h : windowInv p t) (hle : t ≤ now) : windowInv (msgHandler now msg p) now := by
  obtain ⟨h1, h2, h3⟩ := h
  have h3n : ∀ x ∈ p.tsList, x ≤ now := fun x hx => le_trans (h3 x hx) hle
  cases msg with
  | supportRequired =>
      have hch : (p.tsList ++ [now]).Chain' (· ≤ ·) := by
        rw [List.chain'_append]
        refine ⟨h2, by simp, ?_⟩
        intro x hx y hy
        simp only [List.head?_cons, Option.mem_def, Option.some.injEq] at hy
        subst hy
        obtain ⟨hne, rfl⟩ := List.mem_getLast?_eq_getLast hx
        exact h3n _ (List.getLast_mem hne)
      have hmem : ∀ x ∈ p.tsList ++ [now], x ≤ now := by
        intro x hx
        rcases List.mem_append.mp hx with hx | hx
        · exact h3n x hx
        · simp only [List.mem_singleton] at hx
          exact le_of_eq hx
      refine ⟨?_, ?_, ?_⟩ <;> simp only [msgHandler, receivedSupportRequiredMessage] <;>
        split_ifs with hlen
      · have : (p.tsList ++ [now]).length = p.tsList.length + 1 := by simp
        simp only [List.length_tail, this]
        omega
      · simp only [List.length_append, List.length_singleton] at hlen ⊢
        omega
      · exact hch.tail
      · exact hch
      · exact fun x hx => hmem x (List.tail_subset _ hx)
      · exact hmem
  | supportNotNeeded =>
      refine ⟨?_, ?_, ?_⟩ <;>
        simp [msgHandler, receivedSupportNotNeededMessage, resetSupportCycle]
  | peerSupported => exact ⟨h1, h2, h3n⟩
  | peerRegistered => exact ⟨h1, h2, h3n⟩

/-- Every peer operation preserves the request-window invariant, moving the clock
forward to the operation time. -/
theorem windowInv_applyPeerOp (t now : ℤ) (op : PeerOp) (p : MonitoredPeer)
    (h : windowInv p t) (hle : t ≤ now) : windowInv (applyPeerOp now op p) now := by
  cases op with
  | recvMsg msg =>
      have hmeta : windowInv
          { p with lastReceivedMsg := some msg, tsLastReceivedMsg := some now } t :=
        ⟨h.1, h.2.1, h.2.2⟩
      exact windowInv_transition now now _ (windowInv_msgHandler now t msg _ hmeta hle)
  | tickStep =>
      have hn : windowInv p now := ⟨h.1, h.2.1, fun x hx => le_trans (h.2.2 x hx) hle⟩
      exact windowInv_transition now now p hn
  | resetCycleOp =>
      refine ⟨?_, ?_, ?_⟩ <;> simp [applyPeerOp, resetSupportCycle]

/-- The clock value of the last operation in a sequence (the start value when the
sequence is empty). -/
def finalClock (ops : List (ℤ × PeerOp)) (t0 : ℤ) : ℤ :=
  match ops with
  | [] => t0
  | (t, _) :: rest => finalClock rest t

/-- The request-window invariant holds after any operation sequence whose clock values
are nondecreasing. -/
theorem windowInv_applyPeerOps (ops : List (ℤ × PeerOp)) (p : MonitoredPeer) (t0 : ℤ)
    (h : windowInv p t0) (hc : List.Chain' (· ≤ ·) (t0 :: ops.map Prod.fst)) :
    windowInv (applyPeerOps ops p) (finalClock ops t0) := by
  induction ops generalizing p t0 with
  | nil => exact h
  | cons top rest ih =>
      obtain ⟨t1, op⟩ := top
      simp only [List.map_cons, List.chain'_cons] at hc
      obtain ⟨h01, hc1⟩ := hc
      have hstep := windowInv_applyPeerOp t0 t1 op p h h01
      exact ih (applyPeerOp t1 op p) t1 hstep hc1

/-- C8.  (a) Over every sequence of peer operations with nondecreasing clock values,
starting from a state satisfying the window invariant, the request window keeps at most
PEER_REQUIRED_MSGS timestamps and stays nondecreasing.  (b) A SUPPORT_REQUIRED receipt
on a full window drops exactly the oldest entry and appends the receipt time. -/
theorem requestWindowInvariant :
    (∀ (ops : List (ℤ × PeerOp)) (p : MonitoredPeer) (t0 : ℤ),
        windowInv p t0 → List.Chain' (· ≤ ·) (t0 :: ops.map Prod.fst) →
        (applyPeerOps ops p).tsList.length ≤ peerRequiredMsgs
          ∧ (applyPeerOps ops p).tsList.Chain' (· ≤ ·))
    ∧ (∀ (p : MonitoredPeer) (t : ℤ), p.tsList.length = peerRequiredMsgs →
        (receivedSupportRequiredMessage t p).tsList = p.tsList.tail ++ [t]) := by
  constructor
  · intro ops p t0 h hc
    have := windowInv_applyPeerOps ops p t0 h hc
    exact ⟨this.1, this.2.1⟩
  · intro p t h
    have hlen : (p.tsList ++ [t]).length > peerRequiredMsgs := by
      simp only [List.length_append, List.length_singleton, h]
      omega
    cases hts : p.tsList with
    | nil => rw [hts] at h; simp [peerRequiredMsgs] at h
    | cons a l =>
        simp only [receivedSupportRequiredMessage, if_pos hlen]
        rw [hts]
        simp

/-- A full request window (4 nondecreasing entries). -/
def fullWindowPeer : MonitoredPeer :=
  { id := "p4", ip := "10.0.0.6", port := 2003, peerType := 0
    isAliveTimeout := isAliveTimeoutBound, peerTimeout := peerTimeoutBound
    state := .watched, timeoutTimer := none
    tsList := [1000, 2000, 2000, 3000], supportRequests := 4
    lastReceivedMsg := some .supportRequired, tsLastReceivedMsg := some 3000 }

/-- A concrete operation sequence with nondecreasing clock values. -/
def witnessOps : List (ℤ × PeerOp) :=
  [(1000, .recvMsg .supportRequired), (2000, .recvMsg .supportRequired),
    (2000, .recvMsg .peerSupported), (3000, .tickStep),
    (4000, .recvMsg .supportRequired), (5000, .recvMsg .supportRequired),
    (6000, .recvMsg .supportRequired)]

/-- Closed instance of `requestWindowInvariant`: the invariant after a 7-operation
sequence from a fresh peer, and the exact slide of `fullWindowPeer`'s window. -/
theorem requestWindowInvariantWitness :
    ((applyPeerOps witnessOps (freshPeer "w" "10.0.0.5" 2004 0
          isAliveTimeoutBound peerTimeoutBound)).tsList.length ≤ peerRequiredMsgs
      ∧ (applyPeerOps witnessOps (freshPeer "w" "10.0.0.5" 2004 0
          isAliveTimeoutBound peerTimeoutBound)).tsList.Chain' (· ≤ ·))
    ∧ (receivedSupportRequiredMessage 9000 fullWindowPeer).tsList
        = fullWindowPeer.tsList.tail ++ [9000] := by
  constructor
  · refine requestWindowInvariant.1 witnessOps _ 0
      ⟨by decide, by simp [freshPeer], by simp [freshPeer]⟩ ?_
    simp [witnessOps, List.chain'_cons]
  · exact requestWindowInvariant.2 fullWindowPeer 9000 (by decide)

/-- A transition step never changes a peer's identity triple. -/
theorem transition_peerKey (now : ℤ) (p : MonitoredPeer) :
    peerKey (transition now p) = peerKey p := by
  obtain ⟨i, ip, pt, ty, iat, ptm, st, tt, ts, sr, lm, tlm⟩ := p
  cases st <;>
    simp only [transition, resetSupportCycle, peerKey] <;>
    split_ifs <;> rfl

/-- A transition step never changes the last-message bookkeeping. -/
theorem transition_lastMsg (now : ℤ) (p : MonitoredPeer) :
    (transition now p).lastReceivedMsg = p.lastReceivedMsg
      ∧ (transition now p).tsLastReceivedMsg = p.tsLastReceivedMsg := by
  obtain ⟨i, ip, pt, ty, iat, ptm, st, tt, ts, sr, lm, tlm⟩ := p
  cases st <;>
    simp only [transition, resetSupportCycle] <;>
    split_ifs <;> exact ⟨rfl, rfl⟩

/-- The message handlers never change a peer's identity triple. -/
theorem msgHandler_peerKey (now : ℤ) (msg : Msg) (p : MonitoredPeer) :
    peerKey (msgHandler now msg p) = peerKey p := by
  cases msg <;> rfl

/-- `receive_msg` never changes a peer's identity triple. -/
theorem receiveMsg_peerKey (now : ℤ) (msg : Msg) (p : MonitoredPeer) :
    peerKey (receiveMsg now msg p) = peerKey p := by
  unfold receiveMsg
  rw [transition_peerKey, msgHandler_peerKey]
  rfl

/-- After `receive_msg`, the last-message kind is the received kind and the
last-message timestamp is the receipt time. -/
theorem receiveMsg_lastMsg (now : ℤ) (msg : Msg) (p : MonitoredPeer) :
    (receiveMsg now msg p).lastReceivedMsg = some msg
      ∧ (receiveMsg now msg p).tsLastReceivedMsg = some now := by
  unfold receiveMsg
  rw [(transition_lastMsg now _).1, (transition_lastMsg now _).2]
  cases msg <;> exact ⟨rfl, rfl⟩

/-- `receive_msg` never changes the ID field in particular. -/
theorem receiveMsg_id (now : ℤ) (msg : Msg) (p : MonitoredPeer) :
    (receiveMsg now msg p).id = p.id :=
  congrArg Prod.fst (receiveMsg_peerKey now msg p)

/-- Updating the first record with a given ID leaves the registry's identity triples
unchanged whenever the update preserves them. -/
theorem updateFirstById_map_peerKey (id : String) (f : MonitoredPeer → MonitoredPeer)
    (hf : ∀ q, peerKey (f q) = peerKey q) (l : List MonitoredPeer) :
    (updateFirstById id f l).map peerKey = l.map peerKey := by
  induction l with
  | nil => rfl
  | cons q rest ih =>
      by_cases h : q.id = id <;> simp [updateFirstById, h, hf, ih]

/-- Updating the first record with a given ID rewrites exactly the record that a
first-match search finds, whenever the update preserves IDs. -/
theorem find?_updateFirstById (id : String) (f : MonitoredPeer → MonitoredPeer)
    (hf : ∀ q, (f q).id = q.id) (l : List MonitoredPeer) :
    (updateFirstById id f l).find? (fun r => decide (r.id = id))
      = (l.find? (fun r => decide (r.id = id))).map f := by
  induction l with
  | nil => rfl
  | cons q rest ih =>
      by_cases h : q.id = id
      · simp [updateFirstById, h, List.find?_cons, hf]
      · simp [updateFirstById, h, List.find?_cons, ih]

/-- If some registry record has the identity triple `(id, ip, port)`, a first-match
search by that ID succeeds. -/
theorem find?_isSome_of_key (id ip : String) (port : ℤ) (l : List MonitoredPeer)
    (h : l.any (fun q => peerKey q = (id, ip, port)) = true) :
    (l.find? (fun r => decide (r.id = id))).isSome = true := by
  induction l with
  | nil => simp at h
  | cons q rest ih =>
      by_cases hq : q.id = id
      · simp [List.find?_cons, hq]
      · have hq2 : ¬ peerKey q = (id, ip, port) := by
          intro he
          exact hq (congrArg Prod.fst he)
        simp only [List.any_cons, Bool.or_eq_true, decide_eq_true_eq] at h
        rcases h with h | h
        · exact absurd h hq2
        · simpa [List.find?_cons, hq] using ih h

/-- C10.  Registering a peer whose identity triple `(id, ip, port)` is already in the
registry returns the duplicate sentinel (`None`) and leaves the registry's membership
unchanged, but still delivers a synthetic PEER_REGISTERED message: the first registry
record with that ID is replaced by the result of `receive_msg`, so its last-message
kind becomes PEER_REGISTERED and its last-message timestamp becomes `now` (restarting
the PEER_REMOVAL_TIME clock), and one transition step ran on it. -/
theorem registerDuplicateDeliversRegisteredMessage (now : ℤ) (id ip : String)
    (port ty : ℤ) (m : SupporterMonitor)
    (hdup : m.monitoredPeers.any (fun q => peerKey q = (id, ip, port)) = true)
    (hport : port ≥ 1024) (hty : ty = 0 ∨ ty = 1) :
    registerMonitoredPeer now id ip port ty m
        = .ok (none, receivedPeerMessage now .peerRegistered id m)
    ∧ (receivedPeerMessage now .peerRegistered id m).monitoredPeers.map peerKey
        = m.monitoredPeers.map peerKey
    ∧ (receivedPeerMessage now .peerRegistered id m).monitoredPeers.find?
          (fun r => decide (r.id = id))
        = (m.monitoredPeers.find? (fun r => decide (r.id = id))).map
            (receiveMsg now .peerRegistered)
    ∧ ((receivedPeerMessage now .peerRegistered id m).monitoredPeers.find?
          (fun r => decide (r.id = id))).map
            (fun r => (r.lastReceivedMsg, r.tsLastReceivedMsg))
        = some (some .peerRegistered, some now) := by
  have hdup2 : m.monitoredPeers.any
      (fun q => peerKey q
        = peerKey (freshPeer id ip port ty m.isAliveTimeout m.peerTimeout)) = true := hdup
  have hfind := find?_updateFirstById id (receiveMsg now .peerRegistered)
    (fun q => receiveMsg_id now .peerRegistered q) m.monitoredPeers
  refine ⟨?_, ?_, ?_, ?_⟩
  · unfold registerMonitoredPeer mkMonitoredPeer
    rw [if_pos hport, if_pos hty]
    simp only [Bind.bind, Except.bind, hdup2, if_true, if_pos rfl]
    rfl
  · exact updateFirstById_map_peerKey id _
      (fun q => receiveMsg_peerKey now .peerRegistered q) m.monitoredPeers
  · exact hfind
  · have hsome := find?_isSome_of_key id ip port m.monitoredPeers hdup
    obtain ⟨q, hq⟩ := Option.isSome_iff_exists.mp hsome
    unfold receivedPeerMessage
    simp [hfind, hq, (receiveMsg_lastMsg now .peerRegistered q).1,
      (receiveMsg_lastMsg now .peerRegistered q).2]

/-- A monitor state holding one registered peer with identity ("D", 10.0.0.2, 6000). -/
def dupMonitor : SupporterMonitor :=
  { monitoredPeers := [receiveMsg 50000 .peerRegistered
      (freshPeer "D" "10.0.0.2" 6000 1 isAliveTimeoutBound peerTimeoutBound)]
    monitoredSupporters := [], activeSupporters := []
    numberOfAssignments := [], deadSupporters := []
    isAliveTimeout := isAliveTimeoutBound, peerTimeout := peerTimeoutBound }

/-- Closed instance of `registerDuplicateDeliversRegisteredMessage`: re-registering
("D", 10.0.0.2, 6000) at t = 60 s. -/
theorem registerDuplicateWitness :
    registerMonitoredPeer 60000 "D" "10.0.0.2" 6000 1 dupMonitor
        = .ok (none, receivedPeerMessage 60000 .peerRegistered "D" dupMonitor)
    ∧ (receivedPeerMessage 60000 .peerRegistered "D" dupMonitor).monitoredPeers.map
          peerKey
        = dupMonitor.monitoredPeers.map peerKey
    ∧ (receivedPeerMessage 60000 .peerRegistered "D" dupMonitor).monitoredPeers.find?
          (fun r => decide (r.id = "D"))
        = (dupMonitor.monitoredPeers.find? (fun r => decide (r.id = "D"))).map
            (receiveMsg 60000 .peerRegistered)
    ∧ ((receivedPeerMessage 60000 .peerRegistered "D" dupMonitor).monitoredPeers.find?
          (fun r => decide (r.id = "D"))).map
            (fun r => (r.lastReceivedMsg, r.tsLastReceivedMsg))
        = some (some .peerRegistered, some 60000) :=
  registerDuplicateDeliversRegisteredMessage 60000 "D" "10.0.0.2" 6000 1 dupMonitor
    (by decide) (by decide) (Or.inr rfl)

end VodSupporter
